import Mathlib

set_option maxRecDepth 8192

/-!
Verification of the CE2407 AI-coach proxy backend.

The repository is a small Express relay with two variants of the server:
the full variant (called `Part000` below) with analytics recording, and a
reduced variant `src/server.js` (called `ServerJs` below) without analytics.
This file gives a shallow embedding of the request handlers over a model of
JSON/JavaScript values and proves or refutes the claims of the specification.

Modelling conventions:
  - JavaScript numbers are modelled as exact rationals together with the
    distinguished values NaN, Infinity and -Infinity.  IEEE-754 rounding of
    finite doubles is not modelled; no claim proved here depends on it.
  - Strings are sequences of Lean characters; the UTF-16 code-unit view of
    JavaScript strings is identified with the code-point view.
  - Platform builtins that this program calls (JSON.parse on the upstream
    body, the database driver, Math.random, environment access) are modelled
    as explicit inputs of the handler functions.
-/

/-- An exact rational as an unnormalized fraction with a positive
denominator.  Fractions are kept unnormalized so that every arithmetic
operation is plain integer arithmetic and evaluates inside the kernel. -/
structure JsRat : Type where
  num : Int
  den : Nat
deriving DecidableEq

/-- The rational value of a natural number. -/
def JsRat.ofNat (n : Nat) : JsRat := ⟨n, 1⟩

/-- Negation of a fraction. -/
def JsRat.neg (a : JsRat) : JsRat := ⟨-a.num, a.den⟩

/-- Addition of fractions. -/
def JsRat.add (a b : JsRat) : JsRat :=
  ⟨a.num * b.den + b.num * a.den, a.den * b.den⟩

/-- Multiplication of fractions. -/
def JsRat.mul (a b : JsRat) : JsRat := ⟨a.num * b.num, a.den * b.den⟩

/-- Reciprocal of a fraction, keeping the denominator nonnegative. -/
def JsRat.inv (a : JsRat) : JsRat :=
  if a.num < 0 then ⟨-(a.den : Int), a.num.natAbs⟩
  else ⟨(a.den : Int), a.num.natAbs⟩

/-- Division of fractions. -/
def JsRat.div (a b : JsRat) : JsRat := a.mul b.inv

/-- Whether the fraction is zero. -/
def JsRat.isZero (a : JsRat) : Bool := decide (a.num = 0)

/-- Strict order on fractions by cross multiplication (denominators are
positive by construction). -/
def JsRat.lt (a b : JsRat) : Bool :=
  decide (a.num * (b.den : Int) < b.num * (a.den : Int))

/-- Numeric sameness of two fractions by cross multiplication. -/
def JsRat.eqv (a b : JsRat) : Bool :=
  decide (a.num * (b.den : Int) = b.num * (a.den : Int))

/-- The value space of a JavaScript number: a finite value (exact rational),
positive or negative infinity, or NaN. -/
inductive JSNum : Type where
  | finite : JsRat → JSNum
  | inf : JSNum
  | negInf : JSNum
  | nan : JSNum
deriving DecidableEq

/-- JavaScript values as far as this program manipulates them: the JSON
values plus `undefined`.  Objects are association lists of fields. -/
inductive JSValue : Type where
  | undefined : JSValue
  | null : JSValue
  | bool : Bool → JSValue
  | num : JSNum → JSValue
  | str : String → JSValue
  | arr : List JSValue → JSValue
  | obj : List (String × JSValue) → JSValue

/-- Truthiness of a JavaScript value (the semantics of `if (v)`). -/
def truthy : JSValue → Bool
  | .undefined => false
  | .null => false
  | .bool b => b
  | .num (.finite q) => !q.isZero
  | .num .inf => true
  | .num .negInf => true
  | .num .nan => false
  | .str s => decide (s ≠ "")
  | .arr _ => true
  | .obj _ => true

/-- The result of the `typeof` operator on the modelled values. -/
def typeOf : JSValue → String
  | .undefined => "undefined"
  | .null => "object"
  | .bool _ => "boolean"
  | .num _ => "number"
  | .str _ => "string"
  | .arr _ => "object"
  | .obj _ => "object"

/-- Property access `v[k]` for a string key.  On objects the last binding of
the key wins (the behaviour of JSON.parse on duplicate keys); strings and
arrays expose `length`; every other access yields `undefined`. -/
def getField : JSValue → String → JSValue
  | .obj fs, k =>
      (fs.foldl (fun acc p => if p.fst = k then some p.snd else acc)
        (none : Option JSValue)).getD .undefined
  | .str s, k =>
      if k = "length" then .num (.finite (JsRat.ofNat s.length)) else .undefined
  | .arr l, k =>
      if k = "length" then .num (.finite (JsRat.ofNat l.length)) else .undefined
  | _, _ => .undefined

/-- Index access `v[i]` for a numeric key. -/
def getIndex : JSValue → Nat → JSValue
  | .arr l, i => l.getD i .undefined
  | .obj fs, i => getField (.obj fs) (toString i)
  | .str s, i =>
      match s.data.get? i with
      | some c => .str (String.mk [c])
      | none => .undefined
  | _, _ => .undefined

/-- Whether a value is `null` or `undefined` (the guard of `?.` and `??`). -/
def isNullish : JSValue → Bool
  | .null => true
  | .undefined => true
  | _ => false

/-- Optional-chaining field access `v?.k`. -/
def optField (v : JSValue) (k : String) : JSValue :=
  if isNullish v then .undefined else getField v k

/-- Optional-chaining index access `v?.[i]`. -/
def optIndex (v : JSValue) (i : Nat) : JSValue :=
  if isNullish v then .undefined else getIndex v i

/-- Nullish coalescing `v ?? d`. -/
def nullishOr (v d : JSValue) : JSValue :=
  if isNullish v then d else v

/-- Logical or `v || d` in value position. -/
def jsOr (v d : JSValue) : JSValue :=
  if truthy v then v else d

/-- Rendering of a JavaScript number as a string.  The decimal
shortest-round-trip formatting of finite doubles is approximated by an exact
rendering of the rational; no verified claim depends on this case. -/
def jsNumToString : JSNum → String
  | .nan => "NaN"
  | .inf => "Infinity"
  | .negInf => "-Infinity"
  | .finite q =>
      if q.den = 1 then toString q.num
      else toString q.num ++ "/" ++ toString q.den

mutual

/-- String conversion `String(v)`.  Arrays render as the comma join of their
elements with nullish elements blank; plain objects render as the usual
`[object Object]` tag. -/
def jsToString : JSValue → String
  | .undefined => "undefined"
  | .null => "null"
  | .bool b => if b then "true" else "false"
  | .num n => jsNumToString n
  | .str s => s
  | .arr l => String.intercalate "," (jsArrStrings l)
  | .obj _ => "[object Object]"

/-- String conversions of the elements of an array, as used by
`Array.prototype.join`. -/
def jsArrStrings : List JSValue → List String
  | [] => []
  | v :: vs => (if isNullish v then "" else jsToString v) :: jsArrStrings vs

end

/-- Whitespace trimmed by string-to-number conversion. -/
def jsWhitespace (c : Char) : Bool :=
  c = ' ' || c = '\t' || c = '\n' || c = '\r' ||
  c = '\u000B' || c = '\u000C' || c = '\u00A0' || c = '\uFEFF'

/-- Value of a list of decimal digits. -/
def decDigitsVal (ds : List Char) : Nat :=
  ds.foldl (fun a c => a * 10 + (c.toNat - 48)) 0

/-- Whether a character is a hexadecimal digit. -/
def isHexDigitChar (c : Char) : Bool :=
  c.isDigit || ('a' ≤ c && c ≤ 'f') || ('A' ≤ c && c ≤ 'F')

/-- Value of one hexadecimal digit. -/
def hexDigitVal (c : Char) : Nat :=
  if c.isDigit then c.toNat - 48
  else if 'a' ≤ c && c ≤ 'f' then c.toNat - 87
  else c.toNat - 55

/-- Value of a list of digits in a given radix under a digit valuation. -/
def radixVal (r : Nat) (f : Char → Nat) (ds : List Char) : Nat :=
  ds.foldl (fun a c => a * r + f c) 0

/-- Parse an unsigned decimal numeric literal: digits with an optional
fraction part and an optional exponent part, or a fraction-only literal.
Returns `none` when the characters are not exactly such a literal. -/
def parseDecimal (cs : List Char) : Option JsRat :=
  let ip := cs.takeWhile Char.isDigit
  let r1 := cs.dropWhile Char.isDigit
  let hasDot := match r1 with | '.' :: _ => true | _ => false
  let afterDot := match r1 with | '.' :: t => t | _ => r1
  let fp := if hasDot then afterDot.takeWhile Char.isDigit else []
  let r2 := if hasDot then afterDot.dropWhile Char.isDigit else r1
  if ip = [] ∧ fp = [] then none
  else
    let mantissa : JsRat :=
      (JsRat.ofNat (decDigitsVal ip)).add
        ((JsRat.ofNat (decDigitsVal fp)).div (JsRat.ofNat (10 ^ fp.length)))
    match r2 with
    | [] => some mantissa
    | c :: t =>
      if c = 'e' ∨ c = 'E' then
        let eneg := match t with | '-' :: _ => true | _ => false
        let t2 := match t with | '+' :: u => u | '-' :: u => u | _ => t
        let eds := t2.takeWhile Char.isDigit
        let t3 := t2.dropWhile Char.isDigit
        if eds = [] ∨ t3 ≠ [] then none
        else if eneg then
          some (mantissa.div (JsRat.ofNat (10 ^ decDigitsVal eds)))
        else some (mantissa.mul (JsRat.ofNat (10 ^ decDigitsVal eds)))
      else none

/-- Parse a signed decimal literal or a signed `Infinity`. -/
def parseSignedDecimal (cs : List Char) : JSNum :=
  let neg := match cs with | '-' :: _ => true | _ => false
  let body := match cs with | '+' :: t => t | '-' :: t => t | _ => cs
  if body = "Infinity".data then (if neg then .negInf else .inf)
  else
    match parseDecimal body with
    | some q => .finite (if neg then q.neg else q)
    | none => .nan

/-- Numeric conversion of a string, following `Number(string)`: trim
whitespace, the empty remainder is zero, hexadecimal, octal and binary
literals are unsigned, and otherwise a signed decimal literal or `Infinity`
is accepted; anything else is NaN.  Overflow of huge exponents to Infinity
is not modelled (finite doubles are exact rationals here). -/
def strToNumber (s : String) : JSNum :=
  let cs := (s.data.dropWhile jsWhitespace).reverse.dropWhile jsWhitespace
    |>.reverse
  match cs with
  | [] => .finite (JsRat.ofNat 0)
  | '0' :: c :: rest =>
    if c = 'x' ∨ c = 'X' then
      if rest ≠ [] ∧ rest.all isHexDigitChar then
        .finite (JsRat.ofNat (radixVal 16 hexDigitVal rest))
      else .nan
    else if c = 'o' ∨ c = 'O' then
      if rest ≠ [] ∧ rest.all (fun d => '0' ≤ d && d ≤ '7') then
        .finite (JsRat.ofNat (radixVal 8 (fun d => d.toNat - 48) rest))
      else .nan
    else if c = 'b' ∨ c = 'B' then
      if rest ≠ [] ∧ rest.all (fun d => d = '0' || d = '1') then
        .finite (JsRat.ofNat (radixVal 2 (fun d => d.toNat - 48) rest))
      else .nan
    else parseSignedDecimal cs
  | _ => parseSignedDecimal cs

/-- Numeric conversion `Number(v)`.  Arrays convert through their string
form; plain objects convert through `[object Object]` and are NaN. -/
def jsToNumber : JSValue → JSNum
  | .undefined => .nan
  | .null => .finite (JsRat.ofNat 0)
  | .bool b => .finite (JsRat.ofNat (if b then 1 else 0))
  | .num n => n
  | .str s => strToNumber s
  | .arr l => strToNumber (jsToString (.arr l))
  | .obj _ => .nan

/-- The strict comparison `a < b` on numbers: false whenever either side is
NaN. -/
def jsNumLt : JSNum → JSNum → Bool
  | .nan, _ => false
  | _, .nan => false
  | .finite a, .finite b => a.lt b
  | .finite _, .inf => true
  | .finite _, .negInf => false
  | .inf, _ => false
  | .negInf, .negInf => false
  | .negInf, _ => true

/-- The strict comparison `a > b` on numbers. -/
def jsNumGt (a b : JSNum) : Bool := jsNumLt b a

/-- Whether `Number.isFinite(v)` holds: a number value that is finite, with
no coercion of non-numbers. -/
def isFiniteNumber : JSValue → Bool
  | .num (.finite _) => true
  | _ => false

/-! ## Program-level data model -/

/-- A sanitized chat turn: both fields are strings after sanitization. -/
structure ChatTurn : Type where
  role : String
  content : String
deriving DecidableEq

/-- The JSON form of a sanitized chat turn, as serialized into the body of
the upstream request. -/
def turnToJSON (t : ChatTurn) : JSValue :=
  .obj [("role", .str t.role), ("content", .str t.content)]

/-- The row handed to `recordEvent`: the analytics event of the data model. -/
structure AnalyticsRow : Type where
  session_id : JSValue
  user_agent : JSValue
  ip : JSValue
  page : JSValue
  step : JSValue
  section_id : JSValue
  event_name : String
  payload : JSValue

/-- The request headers consumed by the handlers; a missing header is
`none`. -/
structure Headers : Type where
  xForwardedFor : Option String
  userAgent : Option String
  referer : Option String
  xSessionId : Option String
  remoteAddr : Option String

/-- A header value as a JavaScript value: `undefined` when absent. -/
def hdrVal : Option String → JSValue
  | some s => .str s
  | none => .undefined

/-- The operating mode of the Analytics Sink, fixed at startup: persisted
mode (with the outcome of the one insert this request issues) or log-only
mode. -/
inductive SinkMode : Type where
  | persisted : Bool → SinkMode
  | logOnly : SinkMode

/-- Whether the record operation succeeds in this mode. -/
def SinkMode.recordOk : SinkMode → Bool
  | .persisted ok => ok
  | .logOnly => true

/-- The response of the upstream completions endpoint: its status code, the
body read as text, and the outcome of `JSON.parse` on that text.  JSON.parse
is a platform builtin and is modelled as this explicit input. -/
structure UpstreamResponse : Type where
  status : Nat
  text : String
  parsed : Except Unit JSValue

/-- The `ok` property of a fetch response: status in the range 200-299. -/
def UpstreamResponse.isOk (u : UpstreamResponse) : Bool :=
  decide (200 ≤ u.status) && decide (u.status < 300)

/-- The observable outcome of a handler: HTTP status, JSON response body,
and the analytics rows that were actually recorded. -/
structure TrackOutcome : Type where
  status : Nat
  body : JSValue
  events : List AnalyticsRow

/-- The observable outcome of a chat handler: the JSON body sent upstream
(`none` when no upstream call is made), the HTTP status and body returned
to the caller, and the analytics rows recorded. -/
structure ChatOutcome : Type where
  request : Option JSValue
  status : Nat
  body : JSValue
  events : List AnalyticsRow

/-- The guard `req.body || {}` applied before destructuring. -/
def bodyOr (b : JSValue) : JSValue :=
  if truthy b then b else .obj []

/-- Destructuring with a default: the default applies exactly when the
field is `undefined`. -/
def fieldD (v : JSValue) (k : String) (d : JSValue) : JSValue :=
  match getField v k with
  | .undefined => d
  | x => x

/-- Configuration of the chat relay drawn from the environment: the
upstream credential and the chat-content-logging toggle. -/
structure ChatConfig : Type where
  apiKey : Option String
  logChatContentEnv : Option String

/-- Whether the credential is missing: the guard `!OPENAI_API_KEY`. -/
def keyMissing : Option String → Bool
  | none => true
  | some s => decide (s = "")

/-- The content-logging toggle:
`String(process.env.ANALYTICS_LOG_CHAT_CONTENT || "false") === "true"`. -/
def logChatContent (e : Option String) : Bool :=
  decide ((match e with
    | some s => if s = "" then "false" else s
    | none => "false") = "true")

/-- Environment configuration of the tracking endpoint. -/
structure TrackEnv : Type where
  analyticsSample : Option String

namespace Part000

/-- The CORS allow-list of the full server variant. -/
def ALLOWED : List String :=
  ["https://jiaruilei.github.io",
   "http://localhost:3000",
   "http://localhost:5173",
   "http://localhost:5500"]

/-- The CORS origin callback: allow when the origin is falsy (absent or the
empty string) or an exact member of the allow-list. -/
def corsAllow (origin : Option String) : Bool :=
  match origin with
  | none => true
  | some s => decide (s = "") || ALLOWED.contains s

/-- Client IP derivation: first comma-separated entry of the
forwarded-for header, trimmed; otherwise the socket address or null. -/
def clientIp (h : Headers) : JSValue :=
  match h.xForwardedFor with
  | some fwd => .str (((fwd.splitOn ",").headD "").trim)
  | none =>
      match h.remoteAddr with
      | some a => if a = "" then .null else .str a
      | none => .null

/-- Column normalization applied by `recordEvent` in persisted mode to the
insert parameters: falsy text and payload columns coalesce to null and a
non-finite step is stored as null. -/
def normalizeRow (r : AnalyticsRow) : AnalyticsRow :=
  { session_id := jsOr r.session_id .null
    user_agent := jsOr r.user_agent .null
    ip := jsOr r.ip .null
    page := jsOr r.page .null
    step := if isFiniteNumber r.step then r.step else .null
    section_id := jsOr r.section_id .null
    event_name := r.event_name
    payload := jsOr r.payload .null }

/-- The record operation of the Analytics Sink: in persisted mode one insert
of the normalized row which may fail; in log-only mode a structured log
line, which always succeeds. -/
def recordEvent (mode : SinkMode) (r : AnalyticsRow) :
    Except Unit AnalyticsRow :=
  match mode with
  | .persisted true => .ok (normalizeRow r)
  | .persisted false => .error ()
  | .logOnly => .ok r

/-- Whether a supplied message element survives the sanitizer filter:
`m && typeof m.role === "string" && typeof m.content === "string"`. -/
def isWellFormedTurn (m : JSValue) : Bool :=
  truthy m && (typeOf (getField m "role") == "string")
    && (typeOf (getField m "content") == "string")

/-- The map step of the sanitizer:
`{ role: m.role, content: String(m.content) }`.  The filter guarantees the
role is a string; a non-string role collapses to the empty string here. -/
def mkTurn (m : JSValue) : ChatTurn :=
  { role := match getField m "role" with | .str s => s | _ => ""
    content := jsToString (getField m "content") }

/-- The sanitizer body: a non-array input is replaced by the empty list,
then malformed elements are filtered out and survivors are rebuilt. -/
def sanitizeMessages (messages : JSValue) : List ChatTurn :=
  let ms := match messages with | .arr l => l | _ => []
  (ms.filter isWellFormedTurn).map mkTurn

/-- The sanitizer together with the conditional system prepend:
`if (system && !clean.some(m => m.role === "system")) clean.unshift(...)`. -/
def buildClean (system : JSValue) (messages : JSValue) : List ChatTurn :=
  let clean := sanitizeMessages messages
  if truthy system && !(clean.any (fun m => m.role == "system")) then
    { role := "system", content := jsToString system } :: clean
  else clean

/-- The destructured `model` field with its default. -/
def modelOf (b : JSValue) : JSValue :=
  fieldD (bodyOr b) "model" (.str "gpt-4o-mini")

/-- The destructured `temperature` field with its default. -/
def temperatureOf (b : JSValue) : JSValue :=
  fieldD (bodyOr b) "temperature" (.num (.finite ⟨1, 5⟩))

/-- The destructured `system` field with its default. -/
def systemOf (b : JSValue) : JSValue :=
  fieldD (bodyOr b) "system" (.str "")

/-- The destructured `messages` field with its default. -/
def messagesOf (b : JSValue) : JSValue :=
  fieldD (bodyOr b) "messages" (.arr [])

/-- The sanitized sequence of the chat handler for a request body. -/
def cleanOf (b : JSValue) : List ChatTurn :=
  buildClean (systemOf b) (messagesOf b)

/-- The effective temperature:
`isNaN(Number(temperature)) ? 0.2 : Number(temperature)`. -/
def effectiveTemperature (t : JSValue) : JSNum :=
  match jsToNumber t with
  | .nan => .finite ⟨1, 5⟩
  | n => n

/-- The JSON body of the outbound upstream request:
`{ model, temperature, messages: clean }`. -/
def chatRequestBody (b : JSValue) : JSValue :=
  .obj [("model", modelOf b),
        ("temperature", .num (effectiveTemperature (temperatureOf b))),
        ("messages", .arr ((cleanOf b).map turnToJSON))]

/-- The reply extraction `data?.choices?.[0]?.message?.content ?? ""`. -/
def replyOf (data : JSValue) : JSValue :=
  nullishOr
    (optField (optField (optIndex (optField data "choices") 0) "message")
      "content")
    (.str "")

/-- The last user turn of the sanitized sequence:
`[...clean].reverse().find(m => m.role === "user")?.content || ""`. -/
def lastUserOf (clean : List ChatTurn) : String :=
  match clean.reverse.find? (fun m => m.role == "user") with
  | some m => if m.content = "" then "" else m.content
  | none => ""

/-- The analytics row of the upstream-failure path of the chat handler. -/
def chatErrorRow (h : Headers) (u : UpstreamResponse) : AnalyticsRow :=
  { session_id := jsOr (hdrVal h.xSessionId) .null
    user_agent := jsOr (hdrVal h.userAgent) (.str "")
    ip := clientIp h
    page := jsOr (hdrVal h.referer) .null
    step := .null
    section_id := .null
    event_name := "coach_chat_error"
    payload := .obj [("status", .num (.finite (JsRat.ofNat u.status))),
                     ("body", .str (u.text.take 512))] }

/-- The analytics row of the success path of the chat handler. -/
def chatSuccessRow (cfg : ChatConfig) (h : Headers) (b : JSValue)
    (reply : JSValue) : AnalyticsRow :=
  let lastUser := lastUserOf (cleanOf b)
  { session_id := jsOr (hdrVal h.xSessionId) .null
    user_agent := jsOr (hdrVal h.userAgent) (.str "")
    ip := clientIp h
    page := jsOr (hdrVal h.referer) .null
    step := .null
    section_id := .null
    event_name := "coach_chat"
    payload := .obj
      [("model", modelOf b),
       ("temperature", .num (jsToNumber (temperatureOf b))),
       ("prompt_len", .num (.finite (JsRat.ofNat lastUser.length))),
       ("prompt_sample",
         if logChatContent cfg.logChatContentEnv then .str (lastUser.take 500)
         else .undefined),
       ("reply_len", getField reply "length")] }

/-- The generic 500 body of the outermost catch of the chat handler. -/
def proxyErrorBody : JSValue := .obj [("error", .str "Proxy error")]

/-- The chat handler of the full server variant: credential check,
sanitization, the upstream call, and the two analytics-recording response
paths, with the outer catch turning a sink failure or a JSON parse failure
into a generic 500. -/
def chatHandler (cfg : ChatConfig) (h : Headers) (b : JSValue)
    (u : UpstreamResponse) (mode : SinkMode) : ChatOutcome :=
  if keyMissing cfg.apiKey then
    ⟨none, 500, .obj [("error", .str "Missing OPENAI_API_KEY")], []⟩
  else
    let request := chatRequestBody b
    if u.isOk = false then
      match recordEvent mode (chatErrorRow h u) with
      | .error _ => ⟨some request, 500, proxyErrorBody, []⟩
      | .ok recorded =>
          ⟨some request, u.status, .obj [("error", .str u.text)], [recorded]⟩
    else
      match u.parsed with
      | .error _ => ⟨some request, 500, proxyErrorBody, []⟩
      | .ok data =>
          let reply := replyOf data
          match recordEvent mode (chatSuccessRow cfg h b reply) with
          | .error _ => ⟨some request, 500, proxyErrorBody, []⟩
          | .ok recorded =>
              ⟨some request, 200, .obj [("reply", reply)], [recorded]⟩

end Part000

namespace Part000

/-- The row constructed by the tracking endpoint from the destructured body
fields and the request headers. -/
def trackRow (h : Headers) (b : JSValue) : AnalyticsRow :=
  let body := bodyOr b
  let event := getField body "event"
  let page := getField body "page"
  let step := getField body "step"
  let sectionId := getField body "sectionId"
  let sessionId := getField body "sessionId"
  let payload := getField body "payload"
  { session_id := if typeOf sessionId == "string" then sessionId else .null
    user_agent := jsOr (hdrVal h.userAgent) (.str "")
    ip := clientIp h
    page := if typeOf page == "string" then page else .null
    step := if isFiniteNumber step then step else .null
    section_id := if typeOf sectionId == "string" then sectionId else .null
    event_name := (match event with | .str s => s | _ => "").take 64
    payload :=
      if truthy payload && typeOf payload == "object" then payload
      else .null }

/-- The sample rate `Number(process.env.ANALYTICS_SAMPLE ?? "1")`, read
fresh on every request. -/
def sampleRate (env : TrackEnv) : JSNum :=
  strToNumber (env.analyticsSample.getD "1")

/-- The tracking endpoint handler: validate the event name, build the row,
apply optional sampling against a random draw, and record; a sink failure is
caught and surfaces as HTTP 500. -/
def trackHandler (env : TrackEnv) (h : Headers) (b : JSValue)
    (mode : SinkMode) (rand : JsRat) : TrackOutcome :=
  let body := bodyOr b
  let event := getField body "event"
  if !truthy event || (typeOf event == "string") = false then
    ⟨400, .obj [("error", .str "Missing or invalid 'event' field")], []⟩
  else
    let row := trackRow h b
    let sample := sampleRate env
    if jsNumLt sample (.finite ⟨1, 1⟩) && jsNumGt (.finite rand) sample then
      ⟨200, .obj [("ok", .bool true), ("sampled", .bool false)], []⟩
    else
      match recordEvent mode row with
      | .error _ => ⟨500, .obj [("error", .str "track failed")], []⟩
      | .ok recorded => ⟨200, .obj [("ok", .bool true)], [recorded]⟩

end Part000

namespace ServerJs

/-- The CORS allow-list of the reduced server variant. -/
def ALLOWED : List String :=
  ["https://jiaruilei.github.io",
   "http://localhost:3000",
   "http://localhost:5173",
   "http://localhost:5500"]

/-- The CORS origin callback of the reduced variant. -/
def corsAllow (origin : Option String) : Bool :=
  match origin with
  | none => true
  | some s => decide (s = "") || ALLOWED.contains s

/-- The sanitizer filter of the reduced variant. -/
def isWellFormedTurn (m : JSValue) : Bool :=
  truthy m && (typeOf (getField m "role") == "string")
    && (typeOf (getField m "content") == "string")

/-- The sanitizer map step of the reduced variant. -/
def mkTurn (m : JSValue) : ChatTurn :=
  { role := match getField m "role" with | .str s => s | _ => ""
    content := jsToString (getField m "content") }

/-- The sanitizer body of the reduced variant. -/
def sanitizeMessages (messages : JSValue) : List ChatTurn :=
  let ms := match messages with | .arr l => l | _ => []
  (ms.filter isWellFormedTurn).map mkTurn

/-- The sanitizer with the conditional system prepend, reduced variant. -/
def buildClean (system : JSValue) (messages : JSValue) : List ChatTurn :=
  let clean := sanitizeMessages messages
  if truthy system && !(clean.any (fun m => m.role == "system")) then
    { role := "system", content := jsToString system } :: clean
  else clean

/-- The destructured `model` field with its default, reduced variant. -/
def modelOf (b : JSValue) : JSValue :=
  fieldD (bodyOr b) "model" (.str "gpt-4o-mini")

/-- The destructured `temperature` field with its default, reduced
variant. -/
def temperatureOf (b : JSValue) : JSValue :=
  fieldD (bodyOr b) "temperature" (.num (.finite ⟨1, 5⟩))

/-- The destructured `system` field with its default, reduced variant. -/
def systemOf (b : JSValue) : JSValue :=
  fieldD (bodyOr b) "system" (.str "")

/-- The destructured `messages` field with its default, reduced variant. -/
def messagesOf (b : JSValue) : JSValue :=
  fieldD (bodyOr b) "messages" (.arr [])

/-- The sanitized sequence of the reduced chat handler. -/
def cleanOf (b : JSValue) : List ChatTurn :=
  buildClean (systemOf b) (messagesOf b)

/-- The effective temperature of the reduced variant. -/
def effectiveTemperature (t : JSValue) : JSNum :=
  match jsToNumber t with
  | .nan => .finite ⟨1, 5⟩
  | n => n

/-- The JSON body of the outbound upstream request, reduced variant. -/
def chatRequestBody (b : JSValue) : JSValue :=
  .obj [("model", modelOf b),
        ("temperature", .num (effectiveTemperature (temperatureOf b))),
        ("messages", .arr ((cleanOf b).map turnToJSON))]

/-- The reply extraction of the reduced variant. -/
def replyOf (data : JSValue) : JSValue :=
  nullishOr
    (optField (optField (optIndex (optField data "choices") 0) "message")
      "content")
    (.str "")

/-- The outcome of the reduced chat handler: the upstream request body and
the response, with no analytics. -/
structure Outcome : Type where
  request : Option JSValue
  status : Nat
  body : JSValue

/-- The chat handler of the reduced server variant. -/
def chatHandler (apiKey : Option String) (b : JSValue)
    (u : UpstreamResponse) : Outcome :=
  if keyMissing apiKey then
    ⟨none, 500, .obj [("error", .str "Missing OPENAI_API_KEY")]⟩
  else
    let request := chatRequestBody b
    if u.isOk = false then
      ⟨some request, u.status, .obj [("error", .str u.text)]⟩
    else
      match u.parsed with
      | .error _ => ⟨some request, 500, .obj [("error", .str "Proxy error")]⟩
      | .ok data => ⟨some request, 200, .obj [("reply", replyOf data)]⟩

end ServerJs

/-! ## Shared helper lemmas -/

/-- The check `Array.isArray(v)`. -/
def jsIsArray : JSValue → Bool
  | .arr _ => true
  | _ => false

/-- A filter followed by a map is the filterMap of their combination. -/
theorem filter_then_map_eq_filterMap {α β : Type} (p : α → Bool) (f : α → β) :
    ∀ l : List α,
      (l.filter p).map f =
        l.filterMap (fun a => if p a then some (f a) else none)
  | [] => rfl
  | a :: l => by
    by_cases hp : p a = true
    · simp [List.filter_cons, List.filterMap_cons, hp,
        filter_then_map_eq_filterMap p f l]
    · simp [List.filter_cons, List.filterMap_cons, hp,
        filter_then_map_eq_filterMap p f l]

/-- A well-formed element of the message list has string role and content
fields and is rebuilt with those exact strings. -/
theorem mkTurn_of_wellFormed (m : JSValue)
    (hw : Part000.isWellFormedTurn m = true) :
    ∃ r c, getField m "role" = .str r ∧ getField m "content" = .str c ∧
      Part000.mkTurn m = ⟨r, c⟩ := by
  unfold Part000.isWellFormedTurn at hw
  simp only [Bool.and_eq_true, beq_iff_eq] at hw
  obtain ⟨⟨-, hr⟩, hc⟩ := hw
  cases hrv : getField m "role" <;> rw [hrv] at hr <;>
    simp [typeOf] at hr
  cases hcv : getField m "content" <;> rw [hcv] at hc <;>
    simp [typeOf] at hc
  exact ⟨_, _, rfl, rfl, by simp [Part000.mkTurn, hrv, hcv, jsToString]⟩

/-! ## Claims -/

/-- C2: for every value supplied as `messages` the sanitizer is total (it is
a Lean function, so it never raises): a non-array input is treated as the
empty sequence; an array keeps exactly its well-formed elements, rebuilt
with their string role and content, in their original relative order (the
output is a sublist of the elementwise rebuild of the input). -/
theorem claim_C2_sanitizer (v : JSValue) (l : List JSValue) :
    (jsIsArray v = false → Part000.sanitizeMessages v = []) ∧
    Part000.sanitizeMessages (.arr l) =
      l.filterMap (fun m =>
        if Part000.isWellFormedTurn m then some (Part000.mkTurn m) else none) ∧
    List.Sublist (Part000.sanitizeMessages (.arr l))
      (l.map Part000.mkTurn) ∧
    (∀ m, Part000.isWellFormedTurn m = true →
      ∃ r c, getField m "role" = .str r ∧ getField m "content" = .str c ∧
        Part000.mkTurn m = ⟨r, c⟩) := by
  refine ⟨fun hv => ?_, ?_, ?_, fun m hm => mkTurn_of_wellFormed m hm⟩
  · cases v <;> simp [jsIsArray] at hv ⊢ <;> rfl
  · exact filter_then_map_eq_filterMap _ _ l
  · exact List.Sublist.map Part000.mkTurn (List.filter_sublist l)

/-- Witness for C2 at concrete inputs: a non-array value sanitizes to the
empty sequence, and a mixed array keeps only its well-formed turns in
order. -/
theorem claim_C2_sanitizer_witness :
    Part000.sanitizeMessages (.str "nope") = [] ∧
    Part000.sanitizeMessages
      (.arr [.obj [("role", .str "user"), ("content", .str "hi")],
             .null,
             .obj [("role", .str "assistant"), ("content", .str "yo")]]) =
      [.obj [("role", .str "user"), ("content", .str "hi")],
       .null,
       .obj [("role", .str "assistant"), ("content", .str "yo")]].filterMap
        (fun m => if Part000.isWellFormedTurn m then some (Part000.mkTurn m)
          else none) :=
  ⟨(claim_C2_sanitizer (.str "nope") []).1 rfl,
   (claim_C2_sanitizer (.str "nope")
     [.obj [("role", .str "user"), ("content", .str "hi")],
      .null,
      .obj [("role", .str "assistant"), ("content", .str "yo")]]).2.1⟩

/-- C3: a system turn is prepended exactly when `system` is a non-empty
string and no surviving sanitized element already has role "system"; when
one exists, or the system string is empty, the sanitized sequence is
returned unchanged (in particular any original system turn is preserved
unmodified and no additional system turn appears); when prepending, the
first element is the turn with role "system" and the supplied content. -/
theorem claim_C3_system_prepend (system : String) (msgs : JSValue) :
    (system ≠ "" →
      ((Part000.sanitizeMessages msgs).any
        (fun m => m.role == "system")) = false →
      Part000.buildClean (.str system) msgs =
        ⟨"system", system⟩ :: Part000.sanitizeMessages msgs) ∧
    ((system = "" ∨
      ((Part000.sanitizeMessages msgs).any
        (fun m => m.role == "system")) = true) →
      Part000.buildClean (.str system) msgs =
        Part000.sanitizeMessages msgs) := by
  constructor
  · intro hne hnone
    unfold Part000.buildClean
    simp [truthy, hne, hnone, jsToString]
  · intro hcase
    unfold Part000.buildClean
    rcases hcase with he | hsome
    · simp [he, truthy]
    · simp [hsome]

/-- Witness for C3 at concrete inputs: with no existing system turn the
supplied system string is prepended in front; with an existing system turn
the sequence is unchanged. -/
theorem claim_C3_system_prepend_witness :
    Part000.buildClean (.str "You are a coach")
      (.arr [.obj [("role", .str "user"), ("content", .str "hi")]]) =
      ⟨"system", "You are a coach"⟩ ::
        Part000.sanitizeMessages
          (.arr [.obj [("role", .str "user"), ("content", .str "hi")]]) ∧
    Part000.buildClean (.str "You are a coach")
      (.arr [.obj [("role", .str "system"), ("content", .str "X")]]) =
      Part000.sanitizeMessages
        (.arr [.obj [("role", .str "system"), ("content", .str "X")]]) :=
  ⟨(claim_C3_system_prepend "You are a coach"
      (.arr [.obj [("role", .str "user"), ("content", .str "hi")]])).1
      (by decide) (by rfl),
   (claim_C3_system_prepend "You are a coach"
      (.arr [.obj [("role", .str "system"), ("content", .str "X")]])).2
      (Or.inr (by rfl))⟩

/-- The temperature field of the upstream request body of the full variant
is the effective temperature of the destructured temperature. -/
theorem chatRequestBody_temperature_part000 (b : JSValue) :
    getField (Part000.chatRequestBody b) "temperature" =
      .num (Part000.effectiveTemperature (Part000.temperatureOf b)) := rfl

/-- The temperature field of the upstream request body of the reduced
variant is the effective temperature of the destructured temperature. -/
theorem chatRequestBody_temperature_serverjs (b : JSValue) :
    getField (ServerJs.chatRequestBody b) "temperature" =
      .num (ServerJs.effectiveTemperature (ServerJs.temperatureOf b)) := rfl

/-- The two variants destructure the temperature field identically. -/
theorem temperatureOf_eq (b : JSValue) :
    ServerJs.temperatureOf b = Part000.temperatureOf b := rfl

/-- C4: in both server variants, the temperature sent upstream is the
numeric coercion of the supplied temperature, except that a coercion to NaN
is replaced by 0.2. -/
theorem claim_C4_temperature (b : JSValue) :
    (jsToNumber (Part000.temperatureOf b) = .nan →
      getField (Part000.chatRequestBody b) "temperature" =
        .num (.finite ⟨1, 5⟩) ∧
      getField (ServerJs.chatRequestBody b) "temperature" =
        .num (.finite ⟨1, 5⟩)) ∧
    (∀ n, jsToNumber (Part000.temperatureOf b) = n → n ≠ .nan →
      getField (Part000.chatRequestBody b) "temperature" = .num n ∧
      getField (ServerJs.chatRequestBody b) "temperature" = .num n) := by
  constructor
  · intro hnan
    rw [chatRequestBody_temperature_part000,
      chatRequestBody_temperature_serverjs, temperatureOf_eq]
    unfold Part000.effectiveTemperature ServerJs.effectiveTemperature
    rw [hnan]
    exact ⟨rfl, rfl⟩
  · intro n hn hne
    rw [chatRequestBody_temperature_part000,
      chatRequestBody_temperature_serverjs, temperatureOf_eq]
    unfold Part000.effectiveTemperature ServerJs.effectiveTemperature
    rw [hn]
    cases n with
    | nan => exact absurd rfl hne
    | finite q => exact ⟨rfl, rfl⟩
    | inf => exact ⟨rfl, rfl⟩
    | negInf => exact ⟨rfl, rfl⟩

/-- Witness for C4: the supplied temperature "abc" coerces to NaN and both
variants send 0.2 upstream. -/
theorem claim_C4_temperature_witness :
    getField (Part000.chatRequestBody (.obj [("temperature", .str "abc")]))
      "temperature" = .num (.finite ⟨1, 5⟩) ∧
    getField (ServerJs.chatRequestBody (.obj [("temperature", .str "abc")]))
      "temperature" = .num (.finite ⟨1, 5⟩) :=
  (claim_C4_temperature (.obj [("temperature", .str "abc")])).1 (by decide)

/-- C8 fails as stated: the origin callback also allows a present but empty
origin string, which is neither absent nor a member of the allow-list. -/
theorem claim_C8_counterexample :
    Part000.corsAllow (some "") = true ∧
    (some "" : Option String) ≠ none ∧
    Part000.ALLOWED.contains "" = false ∧
    ServerJs.corsAllow (some "") = true ∧
    ServerJs.ALLOWED.contains "" = false := by
  refine ⟨rfl, ?_, by decide, rfl, by decide⟩
  intro h
  cases h

/-- C8 amended: in both variants the Origin Guard allows a request exactly
when the origin is absent or the empty string, or is an exact-equality
member of the fixed allow-list; there is no wildcard or suffix matching. -/
theorem claim_C8_amended (o : Option String) :
    (Part000.corsAllow o = true ↔
      (o = none ∨ o = some "" ∨
        ∃ s, o = some s ∧ Part000.ALLOWED.contains s = true)) ∧
    ServerJs.corsAllow o = Part000.corsAllow o := by
  refine ⟨?_, by cases o <;> rfl⟩
  cases o with
  | none => simp [Part000.corsAllow]
  | some s =>
    simp only [Part000.corsAllow, Bool.or_eq_true, decide_eq_true_eq]
    constructor
    · rintro (he | hm)
      · exact Or.inr (Or.inl (by rw [he]))
      · exact Or.inr (Or.inr ⟨s, rfl, hm⟩)
    · rintro (h | h | ⟨t, ht, hm⟩)
      · cases h
      · exact Or.inl (by injection h)
      · exact Or.inr (by cases ht; exact hm)

/-- Witness for C8 amended: a listed origin is allowed, an unlisted
non-empty origin such as the evil example is denied. -/
theorem claim_C8_amended_witness :
    Part000.corsAllow (some "https://jiaruilei.github.io") = true ∧
    Part000.corsAllow (some "https://evil.example") ≠ true :=
  ⟨(claim_C8_amended (some "https://jiaruilei.github.io")).1.mpr
      (Or.inr (Or.inr ⟨_, rfl, by decide⟩)),
   by decide⟩

/-- When the sink mode records successfully and the row payload is truthy,
the record operation returns a row with the same event name and payload. -/
theorem recordEvent_name_payload (mode : SinkMode) (r : AnalyticsRow)
    (hrec : mode.recordOk = true) (hp : truthy r.payload = true) :
    ∃ rec, Part000.recordEvent mode r = .ok rec ∧
      rec.event_name = r.event_name ∧ rec.payload = r.payload := by
  cases mode with
  | logOnly => exact ⟨r, rfl, rfl, rfl⟩
  | persisted ok =>
    cases ok with
    | false => cases hrec
    | true =>
      refine ⟨Part000.normalizeRow r, rfl, rfl, ?_⟩
      simp [Part000.normalizeRow, jsOr, hp]

/-- C5: when the upstream response has a non-success status (and the
credential is present and the sink records successfully), the chat handler
records exactly one event named coach_chat_error whose payload is the
upstream status and the first 512 characters of the upstream text, and
responds with that same status and the full raw text as the error body. -/
theorem claim_C5_upstream_error (cfg : ChatConfig) (h : Headers)
    (b : JSValue) (u : UpstreamResponse) (mode : SinkMode)
    (hkey : keyMissing cfg.apiKey = false)
    (hfail : u.isOk = false)
    (hrec : mode.recordOk = true) :
    (Part000.chatHandler cfg h b u mode).status = u.status ∧
    (Part000.chatHandler cfg h b u mode).body =
      .obj [("error", .str u.text)] ∧
    (Part000.chatHandler cfg h b u mode).events.map
      (fun r => (r.event_name, r.payload)) =
      [("coach_chat_error",
        .obj [("status", .num (.finite (JsRat.ofNat u.status))),
              ("body", .str (u.text.take 512))])] := by
  obtain ⟨rec, hrecEq, hname, hpayload⟩ :=
    recordEvent_name_payload mode (Part000.chatErrorRow h u) hrec rfl
  have hout : Part000.chatHandler cfg h b u mode =
      ⟨some (Part000.chatRequestBody b), u.status,
        .obj [("error", .str u.text)], [rec]⟩ := by
    unfold Part000.chatHandler
    simp [hkey, hfail, hrecEq]
  rw [hout]
  exact ⟨rfl, rfl, by
    simp only [List.map_cons, List.map_nil, hname, hpayload]
    rfl⟩

/-- Witness for C5: a 429 upstream response with body "rate limited"
passes through with one coach_chat_error event. -/
theorem claim_C5_upstream_error_witness :
    (Part000.chatHandler ⟨some "k", none⟩ ⟨none, none, none, none, none⟩
      (.obj []) ⟨429, "rate limited", .error ()⟩ .logOnly).status = 429 ∧
    (Part000.chatHandler ⟨some "k", none⟩ ⟨none, none, none, none, none⟩
      (.obj []) ⟨429, "rate limited", .error ()⟩ .logOnly).body =
      .obj [("error", .str "rate limited")] ∧
    (Part000.chatHandler ⟨some "k", none⟩ ⟨none, none, none, none, none⟩
      (.obj []) ⟨429, "rate limited", .error ()⟩ .logOnly).events.map
      (fun r => (r.event_name, r.payload)) =
      [("coach_chat_error",
        .obj [("status", .num (.finite (JsRat.ofNat 429))),
              ("body", .str ("rate limited".take 512))])] :=
  claim_C5_upstream_error ⟨some "k", none⟩ ⟨none, none, none, none, none⟩
    (.obj []) ⟨429, "rate limited", .error ()⟩ .logOnly rfl rfl rfl

/-- C6: on a successful upstream response whose text parses as JSON (with
the credential present and the sink recording successfully), the chat
handler responds 200 with the extracted reply, and records exactly one
coach_chat event whose prompt length is the length of the last sanitized
user turn, whose reply length is the length property of the reply, and
whose prompt sample is present exactly when the content-logging toggle is
enabled. -/
theorem claim_C6_success (cfg : ChatConfig) (h : Headers) (b : JSValue)
    (u : UpstreamResponse) (mode : SinkMode) (data : JSValue)
    (hkey : keyMissing cfg.apiKey = false)
    (hok : u.isOk = true)
    (hparse : u.parsed = .ok data)
    (hrec : mode.recordOk = true) :
    (Part000.chatHandler cfg h b u mode).status = 200 ∧
    (Part000.chatHandler cfg h b u mode).body =
      .obj [("reply", Part000.replyOf data)] ∧
    (Part000.chatHandler cfg h b u mode).events.map
      (fun r => (r.event_name, r.payload)) =
      [("coach_chat",
        .obj [("model", Part000.modelOf b),
              ("temperature", .num (jsToNumber (Part000.temperatureOf b))),
              ("prompt_len", .num (.finite (JsRat.ofNat
                (Part000.lastUserOf (Part000.cleanOf b)).length))),
              ("prompt_sample",
                if logChatContent cfg.logChatContentEnv then
                  .str ((Part000.lastUserOf (Part000.cleanOf b)).take 500)
                else .undefined),
              ("reply_len", getField (Part000.replyOf data) "length")])] ∧
    (∀ s, Part000.replyOf data = .str s →
      getField (Part000.replyOf data) "length" =
        .num (.finite (JsRat.ofNat s.length))) := by
  obtain ⟨rec, hrecEq, hname, hpayload⟩ :=
    recordEvent_name_payload mode
      (Part000.chatSuccessRow cfg h b (Part000.replyOf data)) hrec rfl
  have hout : Part000.chatHandler cfg h b u mode =
      ⟨some (Part000.chatRequestBody b), 200,
        .obj [("reply", Part000.replyOf data)], [rec]⟩ := by
    unfold Part000.chatHandler
    simp [hkey, hok, hparse, hrecEq]
  rw [hout]
  refine ⟨rfl, rfl, ?_, ?_⟩
  · simp only [List.map_cons, List.map_nil, hname, hpayload]
    rfl
  · intro s hs
    rw [hs]
    rfl

/-- Witness for C6: a mocked 200 upstream returning the reply "Hi there"
yields a 200 response with that reply and one coach_chat event whose reply
length is 8. -/
theorem claim_C6_success_witness :
    (Part000.chatHandler ⟨some "k", none⟩ ⟨none, none, none, none, none⟩
      (.obj [("messages", .arr [.obj [("role", .str "user"),
                                      ("content", .str "ping")]])])
      ⟨200, "x", .ok (.obj [("choices", .arr [.obj [("message",
        .obj [("content", .str "Hi there")])]])])⟩ .logOnly).status = 200 ∧
    (Part000.chatHandler ⟨some "k", none⟩ ⟨none, none, none, none, none⟩
      (.obj [("messages", .arr [.obj [("role", .str "user"),
                                      ("content", .str "ping")]])])
      ⟨200, "x", .ok (.obj [("choices", .arr [.obj [("message",
        .obj [("content", .str "Hi there")])]])])⟩ .logOnly).body =
      .obj [("reply", Part000.replyOf (.obj [("choices", .arr [.obj [("message",
        .obj [("content", .str "Hi there")])]])]))] ∧
    getField (Part000.replyOf (.obj [("choices", .arr [.obj [("message",
      .obj [("content", .str "Hi there")])]])])) "length" =
      .num (.finite (JsRat.ofNat 8)) :=
  by
    have hc := claim_C6_success ⟨some "k", none⟩ ⟨none, none, none, none, none⟩
      (.obj [("messages", .arr [.obj [("role", .str "user"),
                                      ("content", .str "ping")]])])
      ⟨200, "x", .ok (.obj [("choices", .arr [.obj [("message",
        .obj [("content", .str "Hi there")])]])])⟩ .logOnly
      (.obj [("choices", .arr [.obj [("message",
        .obj [("content", .str "Hi there")])]])]) rfl rfl rfl rfl
    exact ⟨hc.1, hc.2.1, hc.2.2.2 "Hi there" rfl⟩

/-- C9: in the chat success path the temperature recorded in the
coach_chat payload is the raw numeric coercion of the supplied temperature
without the 0.2 fallback; when the coercion yields NaN the recorded
temperature is NaN while the temperature sent upstream is 0.2. -/
theorem claim_C9_recorded_temperature (cfg : ChatConfig) (h : Headers)
    (b : JSValue) (u : UpstreamResponse) (mode : SinkMode) (data : JSValue)
    (hkey : keyMissing cfg.apiKey = false)
    (hok : u.isOk = true)
    (hparse : u.parsed = .ok data)
    (hrec : mode.recordOk = true)
    (hnan : jsToNumber (Part000.temperatureOf b) = .nan) :
    (Part000.chatHandler cfg h b u mode).events.map
      (fun r => getField r.payload "temperature") = [.num .nan] ∧
    (Part000.chatHandler cfg h b u mode).request =
      some (Part000.chatRequestBody b) ∧
    getField (Part000.chatRequestBody b) "temperature" =
      .num (.finite ⟨1, 5⟩) := by
  obtain ⟨rec, hrecEq, hname, hpayload⟩ :=
    recordEvent_name_payload mode
      (Part000.chatSuccessRow cfg h b (Part000.replyOf data)) hrec rfl
  have hout : Part000.chatHandler cfg h b u mode =
      ⟨some (Part000.chatRequestBody b), 200,
        .obj [("reply", Part000.replyOf data)], [rec]⟩ := by
    unfold Part000.chatHandler
    simp [hkey, hok, hparse, hrecEq]
  rw [hout]
  refine ⟨?_, rfl, ?_⟩
  · simp only [List.map_cons, List.map_nil, hpayload]
    have hlook : getField
        (Part000.chatSuccessRow cfg h b (Part000.replyOf data)).payload
        "temperature" = .num (jsToNumber (Part000.temperatureOf b)) := rfl
    rw [hlook, hnan]
  · rw [chatRequestBody_temperature_part000]
    unfold Part000.effectiveTemperature
    rw [hnan]

/-- Witness for C9: with temperature "abc" the recorded payload carries NaN
while the upstream body carries 0.2. -/
theorem claim_C9_recorded_temperature_witness :
    (Part000.chatHandler ⟨some "k", none⟩ ⟨none, none, none, none, none⟩
      (.obj [("temperature", .str "abc")])
      ⟨200, "{}", .ok (.obj [])⟩ .logOnly).events.map
      (fun r => getField r.payload "temperature") = [.num .nan] ∧
    (Part000.chatHandler ⟨some "k", none⟩ ⟨none, none, none, none, none⟩
      (.obj [("temperature", .str "abc")])
      ⟨200, "{}", .ok (.obj [])⟩ .logOnly).request =
      some (Part000.chatRequestBody (.obj [("temperature", .str "abc")])) ∧
    getField (Part000.chatRequestBody (.obj [("temperature", .str "abc")]))
      "temperature" = .num (.finite ⟨1, 5⟩) :=
  claim_C9_recorded_temperature ⟨some "k", none⟩ ⟨none, none, none, none, none⟩
    (.obj [("temperature", .str "abc")]) ⟨200, "{}", .ok (.obj [])⟩
    .logOnly (.obj []) rfl rfl rfl rfl (by decide)

/-- The row built by the tracking endpoint from a valid event field has the
truncated event name, keeps a finite numeric step and stores null otherwise,
and keeps an object or array payload and stores null otherwise. -/
theorem trackRow_fields (h : Headers) (b : JSValue) (s : String)
    (hev : getField (bodyOr b) "event" = .str s) :
    (Part000.trackRow h b).event_name = s.take 64 ∧
    (isFiniteNumber (getField (bodyOr b) "step") = true →
      (Part000.trackRow h b).step = getField (bodyOr b) "step") ∧
    (isFiniteNumber (getField (bodyOr b) "step") = false →
      (Part000.trackRow h b).step = .null) ∧
    (∀ fs, getField (bodyOr b) "payload" = .obj fs →
      (Part000.trackRow h b).payload = .obj fs) ∧
    (∀ l, getField (bodyOr b) "payload" = .arr l →
      (Part000.trackRow h b).payload = .arr l) ∧
    ((∀ fs, getField (bodyOr b) "payload" ≠ .obj fs) →
      (∀ l, getField (bodyOr b) "payload" ≠ .arr l) →
      (Part000.trackRow h b).payload = .null) := by
  refine ⟨?_, ?_, ?_, ?_, ?_, ?_⟩
  · simp [Part000.trackRow, hev]
  · intro hfin
    simp [Part000.trackRow, hfin]
  · intro hfin
    simp [Part000.trackRow, hfin]
  · intro fs hp
    simp [Part000.trackRow, hp, truthy, typeOf]
  · intro l hp
    simp [Part000.trackRow, hp, truthy, typeOf]
  · intro hobj harr
    cases hp : getField (bodyOr b) "payload" with
    | obj fs => exact absurd hp (hobj fs)
    | arr l => exact absurd hp (harr l)
    | undefined => simp [Part000.trackRow, hp, truthy, typeOf]
    | null => simp [Part000.trackRow, hp, truthy, typeOf]
    | bool v => simp [Part000.trackRow, hp, truthy, typeOf]
    | num n => simp [Part000.trackRow, hp, truthy, typeOf]
    | str t => simp [Part000.trackRow, hp, truthy, typeOf]

/-- The persisted-mode column normalization preserves the tracked row
properties of the previous lemma. -/
theorem normalizeRow_fields (h : Headers) (b : JSValue) (s : String)
    (hev : getField (bodyOr b) "event" = .str s) :
    (Part000.normalizeRow (Part000.trackRow h b)).event_name = s.take 64 ∧
    (isFiniteNumber (getField (bodyOr b) "step") = true →
      (Part000.normalizeRow (Part000.trackRow h b)).step =
        getField (bodyOr b) "step") ∧
    (isFiniteNumber (getField (bodyOr b) "step") = false →
      (Part000.normalizeRow (Part000.trackRow h b)).step = .null) ∧
    (∀ fs, getField (bodyOr b) "payload" = .obj fs →
      (Part000.normalizeRow (Part000.trackRow h b)).payload = .obj fs) ∧
    (∀ l, getField (bodyOr b) "payload" = .arr l →
      (Part000.normalizeRow (Part000.trackRow h b)).payload = .arr l) ∧
    ((∀ fs, getField (bodyOr b) "payload" ≠ .obj fs) →
      (∀ l, getField (bodyOr b) "payload" ≠ .arr l) →
      (Part000.normalizeRow (Part000.trackRow h b)).payload = .null) := by
  obtain ⟨hn, hs1, hs2, hp1, hp2, hp3⟩ := trackRow_fields h b s hev
  generalize hX : Part000.trackRow h b = X at hn hs1 hs2 hp1 hp2 hp3 ⊢
  have hproj_name : (Part000.normalizeRow X).event_name = X.event_name := by
    unfold Part000.normalizeRow
    rfl
  have hproj_step : (Part000.normalizeRow X).step =
      (if isFiniteNumber X.step = true then X.step else .null) := by
    unfold Part000.normalizeRow
    rfl
  have hproj_payload : (Part000.normalizeRow X).payload =
      jsOr X.payload .null := by
    unfold Part000.normalizeRow
    rfl
  refine ⟨hproj_name.trans hn, ?_, ?_, ?_, ?_, ?_⟩
  · intro hfin
    rw [hproj_step, hs1 hfin, hfin]
    simp [hfin, hs1 hfin]
  · intro hfin
    rw [hproj_step, hs2 hfin]
    simp [isFiniteNumber]
  · intro fs hp
    rw [hproj_payload, hp1 fs hp]
    simp [jsOr, truthy]
  · intro l hp
    rw [hproj_payload, hp2 l hp]
    simp [jsOr, truthy]
  · intro hobj harr
    rw [hproj_payload, hp3 hobj harr]
    simp [jsOr, truthy]

/-- Whether a value is a plain JSON object (not an array). -/
def isPlainObject : JSValue → Bool
  | .obj _ => true
  | _ => false

/-- C7 fails as stated for array payloads: a supplied payload that is a
JSON array (not a JSON object) is stored as-is by the tracking endpoint
rather than as null, because the typeof check admits arrays. -/
theorem claim_C7_counterexample :
    (Part000.trackHandler ⟨none⟩ ⟨none, none, none, none, none⟩
      (.obj [("event", .str "click"),
             ("payload", .arr [.num (.finite ⟨1, 1⟩)])])
      .logOnly ⟨0, 1⟩).events.map (fun r => r.payload) =
      [.arr [.num (.finite ⟨1, 1⟩)]] ∧
    isPlainObject (.arr [.num (.finite ⟨1, 1⟩)]) = false ∧
    (.arr [.num (.finite ⟨1, 1⟩)] : JSValue) ≠ .null := by
  refine ⟨rfl, rfl, ?_⟩
  intro h
  cases h

/-- C7 amended: an invalid event field (missing, empty or not a string)
yields HTTP 400 with an error body and no event recorded; otherwise any
recorded row carries the first 64 characters of the event as its name, the
supplied step when it is a finite number and null otherwise, and the
supplied payload when it is of object type and non-null (a JSON object or a
JSON array) and null otherwise. -/
theorem claim_C7_amended (env : TrackEnv) (h : Headers) (b : JSValue)
    (mode : SinkMode) (rand : JsRat) :
    ((∀ s : String, getField (bodyOr b) "event" = .str s → s = "") →
      (Part000.trackHandler env h b mode rand).status = 400 ∧
      (Part000.trackHandler env h b mode rand).body =
        .obj [("error", .str "Missing or invalid 'event' field")] ∧
      (Part000.trackHandler env h b mode rand).events = []) ∧
    (∀ s : String, getField (bodyOr b) "event" = .str s → s ≠ "" →
      ∀ row ∈ (Part000.trackHandler env h b mode rand).events,
        row.event_name = s.take 64 ∧
        (isFiniteNumber (getField (bodyOr b) "step") = true →
          row.step = getField (bodyOr b) "step") ∧
        (isFiniteNumber (getField (bodyOr b) "step") = false →
          row.step = .null) ∧
        (∀ fs, getField (bodyOr b) "payload" = .obj fs →
          row.payload = .obj fs) ∧
        (∀ l, getField (bodyOr b) "payload" = .arr l →
          row.payload = .arr l) ∧
        ((∀ fs, getField (bodyOr b) "payload" ≠ .obj fs) →
          (∀ l, getField (bodyOr b) "payload" ≠ .arr l) →
          row.payload = .null)) := by
  constructor
  · intro h400
    cases hev : getField (bodyOr b) "event" with
    | str s =>
        have hs := h400 s hev
        subst hs
        refine ⟨?_, ?_, ?_⟩ <;> simp [Part000.trackHandler, hev, truthy]
    | undefined =>
        refine ⟨?_, ?_, ?_⟩ <;> simp [Part000.trackHandler, hev, truthy]
    | null =>
        refine ⟨?_, ?_, ?_⟩ <;> simp [Part000.trackHandler, hev, truthy]
    | bool v =>
        refine ⟨?_, ?_, ?_⟩ <;>
          simp [Part000.trackHandler, hev, truthy, typeOf]
    | num n =>
        refine ⟨?_, ?_, ?_⟩ <;>
          simp [Part000.trackHandler, hev, truthy, typeOf]
    | arr l =>
        refine ⟨?_, ?_, ?_⟩ <;>
          simp [Part000.trackHandler, hev, truthy, typeOf]
    | obj fs =>
        refine ⟨?_, ?_, ?_⟩ <;>
          simp [Part000.trackHandler, hev, truthy, typeOf]
  · intro s hev hne row hrow
    simp only [Part000.trackHandler, hev, truthy, typeOf] at hrow
    rw [if_neg (by simp [hne])] at hrow
    split at hrow
    · cases hrow
    · cases mode with
      | logOnly =>
          simp only [Part000.recordEvent, List.mem_singleton] at hrow
          subst hrow
          exact trackRow_fields h b s hev
      | persisted ok =>
          cases ok with
          | false => simp [Part000.recordEvent] at hrow
          | true =>
              simp only [Part000.recordEvent, List.mem_singleton] at hrow
              subst hrow
              exact normalizeRow_fields h b s hev

/-- Witness for C7 amended: an empty body is rejected with 400 and the
error body and no event; a valid event with a finite step and an object
payload records a row with the truncated name, that step and that
payload. -/
theorem claim_C7_amended_witness :
    ((Part000.trackHandler ⟨none⟩ ⟨none, none, none, none, none⟩ (.obj [])
      .logOnly ⟨0, 1⟩).status = 400 ∧
     (Part000.trackHandler ⟨none⟩ ⟨none, none, none, none, none⟩ (.obj [])
      .logOnly ⟨0, 1⟩).body =
      .obj [("error", .str "Missing or invalid 'event' field")] ∧
     (Part000.trackHandler ⟨none⟩ ⟨none, none, none, none, none⟩ (.obj [])
      .logOnly ⟨0, 1⟩).events = []) ∧
    (∀ row ∈ (Part000.trackHandler ⟨none⟩ ⟨none, none, none, none, none⟩
        (.obj [("event", .str "click"),
               ("step", .num (.finite ⟨2, 1⟩)),
               ("payload", .obj [("a", .bool true)])])
        .logOnly ⟨0, 1⟩).events,
      row.event_name = "click".take 64 ∧
      row.step = .num (.finite ⟨2, 1⟩) ∧
      row.payload = .obj [("a", .bool true)]) :=
  ⟨(claim_C7_amended ⟨none⟩ ⟨none, none, none, none, none⟩ (.obj [])
      .logOnly ⟨0, 1⟩).1 (fun s hs => by cases hs),
   fun row hrow => by
     have hp := (claim_C7_amended ⟨none⟩ ⟨none, none, none, none, none⟩
        (.obj [("event", .str "click"),
               ("step", .num (.finite ⟨2, 1⟩)),
               ("payload", .obj [("a", .bool true)])])
        .logOnly ⟨0, 1⟩).2 "click" rfl (by decide) row hrow
     exact ⟨hp.1, (hp.2.1 rfl).trans rfl, hp.2.2.2.1 [("a", .bool true)] rfl⟩⟩

/-- C1 fails as stated: a failing insert in persisted mode changes the
response of both endpoints.  At a concrete valid /api/track request the
response is 200 when the insert succeeds but 500 "track failed" when it
fails, and at a concrete /api/chat request with a failing upstream the
response is the upstream passthrough 429 when the insert succeeds but 500
"Proxy error" when it fails. -/
theorem claim_C1_counterexample :
    (Part000.trackHandler ⟨none⟩ ⟨none, none, none, none, none⟩
      (.obj [("event", .str "click")]) (.persisted true) ⟨0, 1⟩).status =
      200 ∧
    (Part000.trackHandler ⟨none⟩ ⟨none, none, none, none, none⟩
      (.obj [("event", .str "click")]) (.persisted false) ⟨0, 1⟩).status =
      500 ∧
    (Part000.trackHandler ⟨none⟩ ⟨none, none, none, none, none⟩
      (.obj [("event", .str "click")]) (.persisted false) ⟨0, 1⟩).body =
      .obj [("error", .str "track failed")] ∧
    (Part000.trackHandler ⟨none⟩ ⟨none, none, none, none, none⟩
      (.obj [("event", .str "click")]) (.persisted false) ⟨0, 1⟩).events =
      [] ∧
    (Part000.chatHandler ⟨some "k", none⟩ ⟨none, none, none, none, none⟩
      (.obj []) ⟨429, "rate limited", .error ()⟩ (.persisted true)).status =
      429 ∧
    (Part000.chatHandler ⟨some "k", none⟩ ⟨none, none, none, none, none⟩
      (.obj []) ⟨429, "rate limited", .error ()⟩ (.persisted false)).status =
      500 ∧
    (Part000.chatHandler ⟨some "k", none⟩ ⟨none, none, none, none, none⟩
      (.obj []) ⟨429, "rate limited", .error ()⟩ (.persisted false)).body =
      Part000.proxyErrorBody :=
  ⟨rfl, rfl, rfl, rfl, rfl, rfl, rfl⟩

/-- C1 amended: in log-only mode the record operation never fails and the
response equals the successful-persistence response; in persisted mode a
failing insert is caught by the outer catch of the handler and does change
the response: whenever the run with a successful insert records an event,
the run with a failing insert responds 500 ("track failed" for /api/track,
"Proxy error" for /api/chat) and records nothing; when no record is
attempted the two runs agree. -/
theorem claim_C1_amended :
    (∀ (env : TrackEnv) (h : Headers) (b : JSValue) (rand : JsRat),
      (Part000.trackHandler env h b .logOnly rand).status =
        (Part000.trackHandler env h b (.persisted true) rand).status ∧
      (Part000.trackHandler env h b .logOnly rand).body =
        (Part000.trackHandler env h b (.persisted true) rand).body) ∧
    (∀ (env : TrackEnv) (h : Headers) (b : JSValue) (rand : JsRat),
      Part000.trackHandler env h b (.persisted false) rand =
        (if (Part000.trackHandler env h b (.persisted true) rand).events.isEmpty
          then Part000.trackHandler env h b (.persisted true) rand
          else ⟨500, .obj [("error", .str "track failed")], []⟩)) ∧
    (∀ (cfg : ChatConfig) (h : Headers) (b : JSValue) (u : UpstreamResponse),
      (Part000.chatHandler cfg h b u .logOnly).request =
        (Part000.chatHandler cfg h b u (.persisted true)).request ∧
      (Part000.chatHandler cfg h b u .logOnly).status =
        (Part000.chatHandler cfg h b u (.persisted true)).status ∧
      (Part000.chatHandler cfg h b u .logOnly).body =
        (Part000.chatHandler cfg h b u (.persisted true)).body) ∧
    (∀ (cfg : ChatConfig) (h : Headers) (b : JSValue) (u : UpstreamResponse),
      Part000.chatHandler cfg h b u (.persisted false) =
        (if (Part000.chatHandler cfg h b u (.persisted true)).events.isEmpty
          then Part000.chatHandler cfg h b u (.persisted true)
          else ⟨(Part000.chatHandler cfg h b u (.persisted true)).request,
                500, Part000.proxyErrorBody, []⟩)) := by
  refine ⟨fun env h b rand => ?_, fun env h b rand => ?_,
    fun cfg h b u => ?_, fun cfg h b u => ?_⟩
  · unfold Part000.trackHandler
    simp only [Part000.recordEvent]
    constructor <;> (repeat' split) <;> rfl
  · unfold Part000.trackHandler
    simp only [Part000.recordEvent]
    (repeat' split) <;> first | rfl | simp_all
  · unfold Part000.chatHandler
    simp only [Part000.recordEvent]
    refine ⟨?_, ?_, ?_⟩ <;> (repeat' split) <;> rfl
  · unfold Part000.chatHandler
    simp only [Part000.recordEvent]
    (repeat' split) <;> first | rfl | simp_all

/-- C10: the two chat implementations are equivalent up to analytics side
effects.  For every request body they compute the same sanitized message
sequence and the same upstream JSON request body, and whenever the analytics
sink records successfully they return the same HTTP status and response
body to the caller on the same upstream response. -/
theorem claim_C10_equivalence (cfg : ChatConfig) (h : Headers) (b : JSValue)
    (u : UpstreamResponse) (mode : SinkMode)
    (hrec : mode.recordOk = true) :
    (∀ sys msgs, Part000.buildClean sys msgs = ServerJs.buildClean sys msgs) ∧
    Part000.chatRequestBody b = ServerJs.chatRequestBody b ∧
    (Part000.chatHandler cfg h b u mode).request =
      (ServerJs.chatHandler cfg.apiKey b u).request ∧
    (Part000.chatHandler cfg h b u mode).status =
      (ServerJs.chatHandler cfg.apiKey b u).status ∧
    (Part000.chatHandler cfg h b u mode).body =
      (ServerJs.chatHandler cfg.apiKey b u).body := by
  have hcases : mode = .logOnly ∨ mode = .persisted true := by
    cases mode with
    | logOnly => exact Or.inl rfl
    | persisted ok =>
        cases ok with
        | false => cases hrec
        | true => exact Or.inr rfl
  refine ⟨fun sys msgs => rfl, rfl, ?_, ?_, ?_⟩ <;>
    rcases hcases with hm | hm <;> subst hm <;>
    unfold Part000.chatHandler ServerJs.chatHandler <;>
    simp only [Part000.recordEvent] <;>
    (repeat' split) <;>
    rfl

/-- Witness for C10 at a concrete request and upstream response: both
variants produce the same upstream body and the same response. -/
theorem claim_C10_equivalence_witness :
    Part000.chatRequestBody
      (.obj [("system", .str "coach"),
             ("messages", .arr [.obj [("role", .str "user"),
                                      ("content", .str "hi")]])]) =
      ServerJs.chatRequestBody
        (.obj [("system", .str "coach"),
               ("messages", .arr [.obj [("role", .str "user"),
                                        ("content", .str "hi")]])]) ∧
    (Part000.chatHandler ⟨some "k", none⟩ ⟨none, none, none, none, none⟩
      (.obj [("system", .str "coach"),
             ("messages", .arr [.obj [("role", .str "user"),
                                      ("content", .str "hi")]])])
      ⟨429, "rate limited", .error ()⟩ .logOnly).status =
      (ServerJs.chatHandler (some "k")
        (.obj [("system", .str "coach"),
               ("messages", .arr [.obj [("role", .str "user"),
                                        ("content", .str "hi")]])])
        ⟨429, "rate limited", .error ()⟩).status :=
  ⟨(claim_C10_equivalence ⟨some "k", none⟩ ⟨none, none, none, none, none⟩
      (.obj [("system", .str "coach"),
             ("messages", .arr [.obj [("role", .str "user"),
                                      ("content", .str "hi")]])])
      ⟨429, "rate limited", .error ()⟩ .logOnly rfl).2.1,
   (claim_C10_equivalence ⟨some "k", none⟩ ⟨none, none, none, none, none⟩
      (.obj [("system", .str "coach"),
             ("messages", .arr [.obj [("role", .str "user"),
                                      ("content", .str "hi")]])])
      ⟨429, "rate limited", .error ()⟩ .logOnly rfl).2.2.2.1⟩
